import Mathlib

/-!
Verification development for the NexusBuy backend's read-through caching
layer (`src/backend/src/main.py` and
`src/backend/src/database/redis_adapter.py`).

Python values flowing through the analytics endpoints (database rows, Mongo
documents, cached JSON) are embedded as the inductive type `PyVal`.
Python `Decimal` payloads and `float` payloads are both carried as exact
rationals; the `float(obj)` conversion applied by `convert_decimals` is
modelled as moving the payload from the `deci` constructor to the `flt`
constructor (the rounding of an arbitrary-precision decimal to the nearest
double is irrelevant to the structural properties proved here).
Dictionary keys are strings, as they are for every row/document/JSON value
these endpoints handle.
-/

inductive PyVal where
  | none : PyVal
  | bool (b : Bool) : PyVal
  | int (n : Int) : PyVal
  | deci (d : Rat) : PyVal
  | flt (f : Rat) : PyVal
  | str (s : String) : PyVal
  | list (items : List PyVal) : PyVal
  | dict (kvs : List (String × PyVal)) : PyVal

/-
Embedding of `convert_decimals` from `main.py` (lines 1799-1807; the
module-level copy — the two function-local copies inside
`get_store_sales_ranking` and `get_delivery_times` have byte-identical
bodies):

    def convert_decimals(obj):
        if isinstance(obj, list):
            return [convert_decimals(item) for item in obj]
        elif isinstance(obj, dict):
            return {k: convert_decimals(v) for k, v in obj.items()}
        elif isinstance(obj, Decimal):
            return float(obj)
        else:
            return obj
-/
mutual
def convert_decimals : PyVal → PyVal
  | .list items => .list (convertValList items)
  | .dict kvs => .dict (convertKvList kvs)
  | .deci d => .flt d
  | .none => .none
  | .bool b => .bool b
  | .int n => .int n
  | .flt f => .flt f
  | .str s => .str s
termination_by v => sizeOf v

def convertValList : List PyVal → List PyVal
  | [] => []
  | x :: xs => convert_decimals x :: convertValList xs
termination_by l => sizeOf l

def convertKvList : List (String × PyVal) → List (String × PyVal)
  | [] => []
  | (k, v) :: xs => (k, convert_decimals v) :: convertKvList xs
termination_by l => sizeOf l
end

/- `hasDecimal`: `true` iff a value of Python `Decimal` kind occurs anywhere
in the structure (the values `json.dumps` rejects with a `TypeError`). -/
mutual
def hasDecimal : PyVal → Bool
  | .list items => hasDecimalValList items
  | .dict kvs => hasDecimalKvList kvs
  | .deci _ => true
  | .none => false
  | .bool _ => false
  | .int _ => false
  | .flt _ => false
  | .str _ => false
termination_by v => sizeOf v

def hasDecimalValList : List PyVal → Bool
  | [] => false
  | x :: xs => hasDecimal x || hasDecimalValList xs
termination_by l => sizeOf l

def hasDecimalKvList : List (String × PyVal) → Bool
  | [] => false
  | (_, v) :: xs => hasDecimal v || hasDecimalKvList xs
termination_by l => sizeOf l
end

/-!
Key-value cache model (`src/backend/src/database/redis_adapter.py`).

The Redis store is modelled as an association list from keys to entries,
newest binding first; `client.set` replaces any previous binding of the
key.  An `Entry` records the stored value and the optional expiry that
`client.expire` attaches.  `set_value` JSON-serializes before writing:
`json.dumps` raises `TypeError` exactly on values containing a `Decimal`
(the only non-JSON-serializable kind reachable here), and a
`json.dumps`/`json.loads` round trip is the identity on the values it
accepts, so entries store the value itself rather than its JSON text.
-/

inductive PyErr where
  | nameError (n : String)
  | typeError (msg : String)
  | dbError (msg : String)
deriving DecidableEq, Repr

structure Entry where
  value : PyVal
  expiry : Option Int

abbrev Cache := List (String × Entry)

def cacheLookup : Cache → String → Option Entry
  | [], _ => Option.none
  | (k0, e0) :: rest, key => if k0 = key then some e0 else cacheLookup rest key

def removeKey : Cache → String → Cache
  | [], _ => []
  | (k0, e0) :: rest, key =>
    if k0 = key then removeKey rest key else (k0, e0) :: removeKey rest key

/- Model of `client.expire(key, ttl)`: attach an expiry to the key's entry. -/
def setExpire : Cache → String → Int → Cache
  | [], _, _ => []
  | (k0, e0) :: rest, key, t =>
    if k0 = key then (k0, { e0 with expiry := some t }) :: setExpire rest key t
    else (k0, e0) :: setExpire rest key t

/- Character-list matching of the glob pattern `p*` used by
`client.keys(f"{table}:*")`: a key matches iff `p` starts it. -/
def listPref : List Char → List Char → Bool
  | [], _ => true
  | _ :: _, [] => false
  | a :: as, b :: bs => a == b && listPref as bs

def strHasPref (p s : String) : Bool := listPref p.toList s.toList

namespace RedisAdapter

/-
Embedding of `RedisAdapter.key_exists` (redis_adapter.py lines 228-230):
    return self.client.exists(key) > 0
-/
def key_exists (cache : Cache) (key : String) : Bool :=
  (cacheLookup cache key).isSome

/-
Embedding of `RedisAdapter.get_value` (lines 186-197):
    value = self.client.get(key)
    return json.loads(value) if value else None
-/
def get_value (cache : Cache) (key : String) : PyVal :=
  match cacheLookup cache key with
  | some e => e.value
  | Option.none => PyVal.none

/-
Embedding of `RedisAdapter.set_value` (lines 168-184):
    serialized = json.dumps(value)        # raises TypeError on Decimal
    result = self.client.set(key, serialized)
    if ttl:                               # truthiness: None and 0 skip expire
        self.client.expire(key, ttl)
    return result
A raised serialization error leaves the store untouched; the final cache
is returned alongside the outcome.
-/
def set_value (cache : Cache) (key : String) (value : PyVal) (ttl : Option Int) :
    Except PyErr Bool × Cache :=
  if hasDecimal value then
    (Except.error (PyErr.typeError "Object of type Decimal is not JSON serializable"), cache)
  else
    let c1 : Cache := (key, { value := value, expiry := Option.none }) :: removeKey cache key
    match ttl with
    | some n => if n = 0 then (Except.ok true, c1) else (Except.ok true, setExpire c1 key n)
    | Option.none => (Except.ok true, c1)

/-
Embedding of the effective `RedisAdapter.delete` (lines 114-126).  The class
body defines `delete` twice (lines 100-112 single-key, lines 114-126 bulk);
Python class-body semantics bind the name to the later definition, so the
single-key variant is unreachable and every `delete(table)` call runs:
    keys = self.client.keys(f"{table}:*")
    if keys:
        self.client.delete(*keys)
    # returns None
-/
def delete : Cache → String → Cache
  | [], _ => []
  | (k0, e0) :: rest, table =>
    if strHasPref (table ++ ":") k0 then delete rest table
    else (k0, e0) :: delete rest table

end RedisAdapter

/-!
Analytics endpoints (`src/backend/src/main.py`).

External collaborators are passed in as values: `origin` is the outcome of
`postgres_adapter.execute_raw` for the request's query and region (rows, or
the raised error), `findDoc` is the region-scoped
`mongo_client.find_one("products", {"_id": id, "region": region})`, and
`clock n` is the string returned by the n-th `datetime.now().isoformat()`
call of the request (`tick` counts the calls already consumed).  Every
endpoint returns its HTTP outcome together with the final cache, clock
position, and the ordered trace of origin queries and completed cache
writes it performed.
-/

inductive Effect where
  | pgQuery (q : String) (region : String)
  | cacheWrite (key : String) (ttl : Int)
deriving DecidableEq, Repr

structure AggResponse where
  source : String
  region : String
  cached_at : Option String
  data : PyVal

structure RunResult where
  resp : Except PyErr AggResponse
  cache : Cache
  tick : Nat
  effects : List Effect

/- Python `int(x)` on a number: truncation toward zero. -/
def pyIntOfRat (q : Rat) : Int := Int.tdiv q.num (q.den : Int)

/- Discount descriptor held in a product's Mongo document.  Fields mirror
`doc["discount"].get(...)` access: a missing key yields `none` (falsy for
`isActive`; `percentage` is read with default 0).  `start_date`/`end_date`
carry the already-parsed date ordinal when the key is present (the
`datetime.fromisoformat` parse itself is not modelled; no claim involves a
malformed date string). -/
structure Discount where
  isActive : Option Bool
  percentage : Option Rat
  start_date : Option Int
  end_date : Option Int
deriving DecidableEq

/- Product document from Mongo.  `images` is `some l` when the document has
an `"images"` key holding a list; each element is that image dict's
`.get("url")`. -/
structure MongoDoc where
  images : Option (List (Option String))
  discount : Option Discount
deriving DecidableEq

/- Row of the popular-products aggregation (id, title, price, region,
total_sold).  The row's `region` column is never read by the enrichment
loop and is omitted.  `price` is carried as an integer: the enrichment
arithmetic `int(price * (1 - percentage / 100))` and the later
`json.dumps` only complete on int/float prices, and every claim settled
below uses integer prices (exact arithmetic, where Python's float
computation is also exact). -/
structure ProductRow where
  id : Int
  title : String
  price : Int
  total_sold : Int
deriving DecidableEq

/- Record dict appended to `result_with_images` (main.py lines 398-405). -/
def enrichedDict (p : ProductRow) (discounted_price : Int) (first_image : Option String) : PyVal :=
  PyVal.dict [("id", PyVal.int p.id), ("title", PyVal.str p.title),
              ("price", PyVal.int p.price),
              ("discounted_price", PyVal.int discounted_price),
              ("total_sold", PyVal.int p.total_sold),
              ("image", match first_image with
                        | some u => PyVal.str u
                        | Option.none => PyVal.none)]

/-
One iteration of the enrichment loop of `get_popular_products`
(main.py lines 382-405):

    doc = mongo_client.find_one("products", {"_id": product_id, "region": region})
    first_image = None
    if doc and isinstance(doc.get("images"), list) and doc["images"]:
        first_image = doc["images"][0].get("url")
    price = product["price"]
    discounted_price = price
    if doc and "discount" in doc:
        discount = doc["discount"]
    if discount.get("isActive"):
        percentage = discount.get("percentage", 0)
        discounted_price = int(price * (1 - percentage / 100))
    result_with_images.append({...})

The function-local variable `discount` survives across iterations and is
modelled by the threaded `dv : Option Discount`, `none` while unassigned;
reading it unassigned raises `NameError` exactly as line 394 does.
-/
def enrichStep (findDoc : Int → Option MongoDoc) (dv : Option Discount) (product : ProductRow) :
    Except PyErr (PyVal × Option Discount) :=
  let doc := findDoc product.id
  let first_image : Option String :=
    match doc with
    | some d =>
      match d.images with
      | some (u :: _) => u
      | _ => Option.none
    | Option.none => Option.none
  let price := product.price
  let dv1 : Option Discount :=
    match doc with
    | some d =>
      match d.discount with
      | some dd => some dd
      | Option.none => dv
    | Option.none => dv
  match dv1 with
  | Option.none => Except.error (PyErr.nameError "discount")
  | some discount =>
    let discounted_price :=
      if discount.isActive.getD false then
        pyIntOfRat ((price : Rat) * (1 - discount.percentage.getD 0 / 100))
      else price
    Except.ok (enrichedDict product discounted_price first_image, some discount)

/- Enrichment loop over all rows, threading the `discount` variable. -/
def enrichAll (findDoc : Int → Option MongoDoc) (dv : Option Discount) :
    List ProductRow → Except PyErr (List PyVal)
  | [] => Except.ok []
  | p :: ps =>
    match enrichStep findDoc dv p with
    | Except.error e => Except.error e
    | Except.ok (d, dv1) =>
      match enrichAll findDoc dv1 ps with
      | Except.error e => Except.error e
      | Except.ok ds => Except.ok (d :: ds)

/-
Embedding of `get_store_sales_ranking` (main.py lines 162-238).  `origin`
is the outcome of `postgres_adapter.execute_raw(query, {"region": region})`
for the ranking query.  Control flow, clock sampling and cache writes
follow the source line by line; a raised error ends the request with the
cache as it stood.
-/
def get_store_sales_ranking (origin : Except PyErr PyVal) (clock : Nat → String)
    (cache : Cache) (tick : Nat) (region : String) : RunResult :=
  let cache_key := "store_sales_ranking:" ++ region
  let ttl_seconds : Int := 60 * 60 * 24 * 30
  if RedisAdapter.key_exists cache cache_key then
    { resp := Except.ok { source := "redis", region := region, cached_at := Option.none,
                          data := RedisAdapter.get_value cache cache_key },
      cache := cache, tick := tick, effects := [] }
  else
    match origin with
    | Except.error e =>
      { resp := Except.error e, cache := cache, tick := tick,
        effects := [Effect.pgQuery "store_sales_ranking" region] }
    | Except.ok rows =>
      let result := convert_decimals rows
      let now_iso := clock tick
      match RedisAdapter.set_value cache cache_key result (some ttl_seconds) with
      | (Except.error e, c1) =>
        { resp := Except.error e, cache := c1, tick := tick + 1,
          effects := [Effect.pgQuery "store_sales_ranking" region] }
      | (Except.ok _, c1) =>
        match RedisAdapter.set_value c1 (cache_key ++ ":timestamp")
            (PyVal.str now_iso) (some ttl_seconds) with
        | (Except.error e, c2) =>
          { resp := Except.error e, cache := c2, tick := tick + 1,
            effects := [Effect.pgQuery "store_sales_ranking" region,
                        Effect.cacheWrite cache_key ttl_seconds] }
        | (Except.ok _, c2) =>
          { resp := Except.ok { source := "postgresql", region := region,
                                cached_at := some now_iso, data := result },
            cache := c2, tick := tick + 1,
            effects := [Effect.pgQuery "store_sales_ranking" region,
                        Effect.cacheWrite cache_key ttl_seconds,
                        Effect.cacheWrite (cache_key ++ ":timestamp") ttl_seconds] }

/-
Embedding of `get_delivery_times` (main.py lines 241-310): identical
read-through shape with prefix `delivery_times` and the same 30-day TTL.
-/
def get_delivery_times (origin : Except PyErr PyVal) (clock : Nat → String)
    (cache : Cache) (tick : Nat) (region : String) : RunResult :=
  let cache_key := "delivery_times:" ++ region
  let ttl_seconds : Int := 60 * 60 * 24 * 30
  if RedisAdapter.key_exists cache cache_key then
    { resp := Except.ok { source := "redis", region := region, cached_at := Option.none,
                          data := RedisAdapter.get_value cache cache_key },
      cache := cache, tick := tick, effects := [] }
  else
    match origin with
    | Except.error e =>
      { resp := Except.error e, cache := cache, tick := tick,
        effects := [Effect.pgQuery "delivery_times" region] }
    | Except.ok rows =>
      let result := convert_decimals rows
      let now_iso := clock tick
      match RedisAdapter.set_value cache cache_key result (some ttl_seconds) with
      | (Except.error e, c1) =>
        { resp := Except.error e, cache := c1, tick := tick + 1,
          effects := [Effect.pgQuery "delivery_times" region] }
      | (Except.ok _, c1) =>
        match RedisAdapter.set_value c1 (cache_key ++ ":timestamp")
            (PyVal.str now_iso) (some ttl_seconds) with
        | (Except.error e, c2) =>
          { resp := Except.error e, cache := c2, tick := tick + 1,
            effects := [Effect.pgQuery "delivery_times" region,
                        Effect.cacheWrite cache_key ttl_seconds] }
        | (Except.ok _, c2) =>
          { resp := Except.ok { source := "postgresql", region := region,
                                cached_at := some now_iso, data := result },
            cache := c2, tick := tick + 1,
            effects := [Effect.pgQuery "delivery_times" region,
                        Effect.cacheWrite cache_key ttl_seconds,
                        Effect.cacheWrite (cache_key ++ ":timestamp") ttl_seconds] }

/-
Embedding of `get_popular_products` (main.py lines 312-416).  On a miss the
rows are enriched (no decimal normalization happens on this endpoint), the
result is written with TTL 86400, then
`redis_pool.set_value(f"{cache_key}:timestamp", datetime.now().isoformat(), ttl=86400)`
samples the clock once, and the returned `cached_at` is produced by a
second, separate `datetime.now().isoformat()` call (line 413).
-/
def get_popular_products (origin : Except PyErr (List ProductRow))
    (findDoc : Int → Option MongoDoc) (clock : Nat → String)
    (cache : Cache) (tick : Nat) (region : String) : RunResult :=
  let cache_key := "popular_products:" ++ region
  if RedisAdapter.key_exists cache cache_key then
    { resp := Except.ok { source := "redis", region := region, cached_at := Option.none,
                          data := RedisAdapter.get_value cache cache_key },
      cache := cache, tick := tick, effects := [] }
  else
    match origin with
    | Except.error e =>
      { resp := Except.error e, cache := cache, tick := tick,
        effects := [Effect.pgQuery "popular_products" region] }
    | Except.ok rows =>
      match enrichAll findDoc Option.none rows with
      | Except.error e =>
        { resp := Except.error e, cache := cache, tick := tick,
          effects := [Effect.pgQuery "popular_products" region] }
      | Except.ok enriched =>
        let result_with_images := PyVal.list enriched
        match RedisAdapter.set_value cache cache_key result_with_images (some 86400) with
        | (Except.error e, c1) =>
          { resp := Except.error e, cache := c1, tick := tick,
            effects := [Effect.pgQuery "popular_products" region] }
        | (Except.ok _, c1) =>
          match RedisAdapter.set_value c1 (cache_key ++ ":timestamp")
              (PyVal.str (clock tick)) (some 86400) with
          | (Except.error e, c2) =>
            { resp := Except.error e, cache := c2, tick := tick + 1,
              effects := [Effect.pgQuery "popular_products" region,
                          Effect.cacheWrite cache_key 86400] }
          | (Except.ok _, c2) =>
            { resp := Except.ok { source := "postgresql", region := region,
                                  cached_at := some (clock (tick + 1)),
                                  data := result_with_images },
              cache := c2, tick := tick + 2,
              effects := [Effect.pgQuery "popular_products" region,
                          Effect.cacheWrite cache_key 86400,
                          Effect.cacheWrite (cache_key ++ ":timestamp") 86400] }

/-
Embedding of `clear_popular_cache` (main.py lines 446-476):

    cache_key = f"popular_products"
    redis_pool.delete("popular_products")
    redis_pool.delete(f"{cache_key}:timestamp")
-/
def clear_popular_cache (cache : Cache) : Cache :=
  RedisAdapter.delete (RedisAdapter.delete cache "popular_products") "popular_products:timestamp"

/-
Embedding of the discount block of `get_product` (main.py lines 1299-1314):

    active_discounts = []
    discounted_price = product["price"]
    if mongo_doc and "discount" in mongo_doc:
        discount = mongo_doc["discount"]
        now = datetime.now().date()
        if (
            discount.get("isActive") and
            "start_date" in discount and
            "end_date" in discount and
            datetime.fromisoformat(discount["start_date"]).date() <= now
              <= datetime.fromisoformat(discount["end_date"]).date()
        ):
            active_discounts.append(discount)
            percentage = discount.get("percentage", 0)
            discounted_price = int(product["price"] * (1 - percentage / 100))

Returns the `discounted_price` and `active_discounts` fields of the
response; `today` is `datetime.now().date()` as an ordinal.
-/
def get_product_discount (price : Int) (mongo_doc : Option MongoDoc) (today : Int) :
    Int × List Discount :=
  match mongo_doc with
  | Option.none => (price, [])
  | some d =>
    match d.discount with
    | Option.none => (price, [])
    | some discount =>
      match discount.start_date, discount.end_date with
      | some s, some e =>
        if discount.isActive.getD false && decide (s ≤ today) && decide (today ≤ e) then
          (pyIntOfRat ((price : Rat) * (1 - discount.percentage.getD 0 / 100)), [discount])
        else (price, [])
      | _, _ => (price, [])

/-! Helper lemmas. -/

theorem convertValList_eq_map (l : List PyVal) :
    convertValList l = l.map convert_decimals := by
  induction l with
  | nil => simp [convertValList]
  | cons x xs ih => simp [convertValList, ih]

theorem convertKvList_eq_map (l : List (String × PyVal)) :
    convertKvList l = l.map (fun kv => (kv.1, convert_decimals kv.2)) := by
  induction l with
  | nil => simp [convertKvList]
  | cons kv xs ih =>
    cases kv with
    | mk k v => simp [convertKvList, ih]

mutual
theorem convert_decimals_idem (v : PyVal) :
    convert_decimals (convert_decimals v) = convert_decimals v := by
  cases v with
  | list items => simp [convert_decimals, convertValList_idem items]
  | dict kvs => simp [convert_decimals, convertKvList_idem kvs]
  | deci d => simp [convert_decimals]
  | none => simp [convert_decimals]
  | bool b => simp [convert_decimals]
  | int n => simp [convert_decimals]
  | flt f => simp [convert_decimals]
  | str s => simp [convert_decimals]
termination_by sizeOf v

theorem convertValList_idem (l : List PyVal) :
    convertValList (convertValList l) = convertValList l := by
  cases l with
  | nil => simp [convertValList]
  | cons x xs => simp [convertValList, convert_decimals_idem x, convertValList_idem xs]
termination_by sizeOf l

theorem convertKvList_idem (l : List (String × PyVal)) :
    convertKvList (convertKvList l) = convertKvList l := by
  cases l with
  | nil => simp [convertKvList]
  | cons kv xs =>
    cases kv with
    | mk k v => simp [convertKvList, convert_decimals_idem v, convertKvList_idem xs]
termination_by sizeOf l
end

mutual
theorem hasDecimal_convert (v : PyVal) : hasDecimal (convert_decimals v) = false := by
  cases v with
  | list items => simp [convert_decimals, hasDecimal, hasDecimalValList_convert items]
  | dict kvs => simp [convert_decimals, hasDecimal, hasDecimalKvList_convert kvs]
  | deci d => simp [convert_decimals, hasDecimal]
  | none => simp [convert_decimals, hasDecimal]
  | bool b => simp [convert_decimals, hasDecimal]
  | int n => simp [convert_decimals, hasDecimal]
  | flt f => simp [convert_decimals, hasDecimal]
  | str s => simp [convert_decimals, hasDecimal]
termination_by sizeOf v

theorem hasDecimalValList_convert (l : List PyVal) :
    hasDecimalValList (convertValList l) = false := by
  cases l with
  | nil => simp [convertValList, hasDecimalValList]
  | cons x xs =>
    simp [convertValList, hasDecimalValList, hasDecimal_convert x, hasDecimalValList_convert xs]
termination_by sizeOf l

theorem hasDecimalKvList_convert (l : List (String × PyVal)) :
    hasDecimalKvList (convertKvList l) = false := by
  cases l with
  | nil => simp [convertKvList, hasDecimalKvList]
  | cons kv xs =>
    cases kv with
    | mk k v => simp [convertKvList, hasDecimalKvList, hasDecimal_convert v, hasDecimalKvList_convert xs]
termination_by sizeOf l
end

/-- C5: `convert_decimals`, on any nested structure of mappings, lists and
scalars, replaces every `Decimal` scalar with its float equivalent, leaves
all other scalars untouched, preserves container types and element order
(lists map elementwise; dicts keep their keys in order and convert the
values), leaves no value of decimal kind in its output, and is idempotent. -/
theorem C5_convert_decimals_correct :
    (∀ v, convert_decimals (convert_decimals v) = convert_decimals v)
    ∧ (∀ v, hasDecimal (convert_decimals v) = false)
    ∧ (∀ d, convert_decimals (PyVal.deci d) = PyVal.flt d)
    ∧ convert_decimals PyVal.none = PyVal.none
    ∧ (∀ b, convert_decimals (PyVal.bool b) = PyVal.bool b)
    ∧ (∀ n, convert_decimals (PyVal.int n) = PyVal.int n)
    ∧ (∀ f, convert_decimals (PyVal.flt f) = PyVal.flt f)
    ∧ (∀ s, convert_decimals (PyVal.str s) = PyVal.str s)
    ∧ (∀ items, convert_decimals (PyVal.list items) =
        PyVal.list (items.map convert_decimals))
    ∧ (∀ kvs, convert_decimals (PyVal.dict kvs) =
        PyVal.dict (kvs.map (fun kv => (kv.1, convert_decimals kv.2)))) := by
  refine ⟨convert_decimals_idem, hasDecimal_convert, ?_, ?_, ?_, ?_, ?_, ?_, ?_, ?_⟩
  · intro d; simp [convert_decimals]
  · simp [convert_decimals]
  · intro b; simp [convert_decimals]
  · intro n; simp [convert_decimals]
  · intro f; simp [convert_decimals]
  · intro s; simp [convert_decimals]
  · intro items; simp [convert_decimals, convertValList_eq_map]
  · intro kvs; simp [convert_decimals, convertKvList_eq_map]

/-! Cache lemmas. -/

theorem cacheLookup_removeKey (c : Cache) (k k' : String) :
    cacheLookup (removeKey c k) k' =
      if k' = k then Option.none else cacheLookup c k' := by
  induction c with
  | nil => simp [cacheLookup, removeKey]
  | cons kv rest ih =>
    obtain ⟨k0, e0⟩ := kv
    by_cases h0 : k0 = k
    · by_cases h1 : k' = k
      · simp only [removeKey, cacheLookup, h0, h1, if_pos rfl] at ih ⊢
        exact ih
      · have h2 : ¬ k = k' := fun h => h1 h.symm
        simp [removeKey, cacheLookup, h0, h1, h2, ih]
    · by_cases h1 : k' = k
      · have h2 : ¬ k0 = k' := fun h => h0 (h.trans h1)
        simp only [removeKey, cacheLookup, h0, h1, h2, if_pos rfl, if_neg h0, if_neg h2] at ih ⊢
        exact ih
      · simp [removeKey, cacheLookup, h0, h1, ih]

theorem cacheLookup_setExpire (c : Cache) (k : String) (t : Int) (k' : String) :
    cacheLookup (setExpire c k t) k' =
      (cacheLookup c k').map
        (fun e => if k' = k then { e with expiry := some t } else e) := by
  induction c with
  | nil => simp [cacheLookup, setExpire]
  | cons kv rest ih =>
    obtain ⟨k0, e0⟩ := kv
    by_cases h0 : k0 = k
    · by_cases h1 : k0 = k'
      · simp [setExpire, cacheLookup, h0, h1, h1.symm.trans h0]
      · have h2 : ¬ k = k' := fun h => h1 (h0.trans h)
        have h3 : ¬ k' = k := fun h => h2 h.symm
        simp [setExpire, cacheLookup, h0, h1, h2, h3, ih]
    · by_cases h1 : k0 = k'
      · have h2 : ¬ k' = k := fun h => h0 (h1.trans h)
        simp [setExpire, cacheLookup, h0, h1, h2]
      · simp [setExpire, cacheLookup, h0, h1, ih]

theorem set_value_ok_eq (c : Cache) (k : String) (v : PyVal) (n : Int)
    (hv : hasDecimal v = false) (hn : ¬ n = 0) :
    RedisAdapter.set_value c k v (some n) =
      (Except.ok true, setExpire ((k, ⟨v, Option.none⟩) :: removeKey c k) k n) := by
  simp [RedisAdapter.set_value, hv, hn]

theorem cacheLookup_after_set (c : Cache) (k : String) (v : PyVal) (n : Int) (k' : String) :
    cacheLookup (setExpire ((k, ⟨v, Option.none⟩) :: removeKey c k) k n) k' =
      if k' = k then some ⟨v, some n⟩ else cacheLookup c k' := by
  rw [cacheLookup_setExpire]
  by_cases h : k' = k
  · simp [cacheLookup, h]
  · simp [cacheLookup, h, cacheLookup_removeKey]
    intro h2
    exact absurd h2.symm h

theorem listPref_length (xs ys : List Char) (h : listPref xs ys = true) :
    xs.length ≤ ys.length := by
  induction xs generalizing ys with
  | nil => simp
  | cons a as ih =>
    cases ys with
    | nil => simp [listPref] at h
    | cons b bs =>
      simp only [listPref, Bool.and_eq_true] at h
      have := ih bs h.2
      simp only [List.length_cons]
      omega

theorem listPref_append_left (xs ys zs : List Char) (h : listPref (xs ++ ys) zs = true) :
    listPref xs zs = true := by
  induction xs generalizing zs with
  | nil => simp [listPref]
  | cons a as ih =>
    cases zs with
    | nil => simp [listPref] at h
    | cons b bs =>
      simp only [List.cons_append, listPref, Bool.and_eq_true] at h ⊢
      exact ⟨h.1, ih bs h.2⟩

theorem toList_append (s t : String) : (s ++ t).toList = s.toList ++ t.toList := by
  simp [String.toList, String.data_append]

theorem strHasPref_mono (p q s : String) (h : strHasPref (p ++ q) s = true) :
    strHasPref p s = true := by
  unfold strHasPref at h ⊢
  rw [toList_append] at h
  exact listPref_append_left _ _ _ h

/- The bare key `t` itself never matches the glob `t:*`. -/
theorem strHasPref_self_colon (t u : String) (hu : ¬ u.toList.length = 0) :
    strHasPref (t ++ u) t = false := by
  cases h : strHasPref (t ++ u) t
  · rfl
  · exfalso
    unfold strHasPref at h
    rw [toList_append] at h
    have := listPref_length _ _ h
    rw [List.length_append] at this
    omega

theorem append_ne_self (s u : String) (hu : ¬ u.toList.length = 0) : ¬ (s ++ u = s) := by
  intro h
  have := congrArg (fun x => x.toList.length) h
  simp only [toList_append, List.length_append] at this
  omega

theorem cacheLookup_delete (c : Cache) (t k : String) :
    cacheLookup (RedisAdapter.delete c t) k =
      if strHasPref (t ++ ":") k = true then Option.none else cacheLookup c k := by
  induction c with
  | nil => simp [cacheLookup, RedisAdapter.delete]
  | cons kv rest ih =>
    obtain ⟨k0, e0⟩ := kv
    by_cases h0 : strHasPref (t ++ ":") k0 = true
    · by_cases h1 : k0 = k
      · subst h1
        simp [RedisAdapter.delete, h0, ih]
      · simp [RedisAdapter.delete, cacheLookup, h0, h1, ih]
    · by_cases h1 : k0 = k
      · subst h1
        simp [RedisAdapter.delete, cacheLookup, h0]
      · simp [RedisAdapter.delete, cacheLookup, h0, h1, ih]

theorem delete_delete_absorb (c : Cache) (t u : String)
    (h : ∀ k, strHasPref (u ++ ":") k = true → strHasPref (t ++ ":") k = true) :
    RedisAdapter.delete (RedisAdapter.delete c t) u = RedisAdapter.delete c t := by
  induction c with
  | nil => simp [RedisAdapter.delete]
  | cons kv rest ih =>
    obtain ⟨k0, e0⟩ := kv
    by_cases h0 : strHasPref (t ++ ":") k0 = true
    · simp [RedisAdapter.delete, h0, ih]
    · have h1 : strHasPref (u ++ ":") k0 = false := by
        cases hh : strHasPref (u ++ ":") k0
        · rfl
        · exact absurd (h k0 hh) h0
      simp [RedisAdapter.delete, h0, h1, ih]

theorem clear_popular_eq_single_delete (c : Cache) :
    clear_popular_cache c = RedisAdapter.delete c "popular_products" := by
  unfold clear_popular_cache
  apply delete_delete_absorb
  intro k hk
  have e1 : ("popular_products:timestamp" : String) ++ ":" =
      ("popular_products" ++ ":") ++ "timestamp:" := by decide
  rw [e1] at hk
  exact strHasPref_mono _ _ _ hk

theorem hasDecimal_enrichedDict (p : ProductRow) (d : Int) (img : Option String) :
    hasDecimal (enrichedDict p d img) = false := by
  cases img <;> simp [enrichedDict, hasDecimal, hasDecimalKvList]

theorem enrichStep_ok_shape (findDoc : Int → Option MongoDoc) (dv : Option Discount)
    (p : ProductRow) (v : PyVal) (dv' : Option Discount)
    (h : enrichStep findDoc dv p = Except.ok (v, dv')) :
    hasDecimal v = false := by
  simp only [enrichStep] at h
  split at h
  · exact absurd h (by simp)
  · simp only [Except.ok.injEq, Prod.mk.injEq] at h
    rw [← h.1]
    apply hasDecimal_enrichedDict

theorem enrichAll_ok_no_decimal (findDoc : Int → Option MongoDoc) :
    ∀ (rows : List ProductRow) (dv : Option Discount) (enriched : List PyVal),
    enrichAll findDoc dv rows = Except.ok enriched → hasDecimalValList enriched = false := by
  intro rows
  induction rows with
  | nil =>
    intro dv enriched h
    simp only [enrichAll, Except.ok.injEq] at h
    rw [← h]
    simp [hasDecimalValList]
  | cons p ps ih =>
    intro dv enriched h
    simp only [enrichAll] at h
    split at h
    · exact absurd h (by simp)
    · rename_i step d dv1 hstep
      split at h
      · exact absurd h (by simp)
      · rename_i rest ds hrest
        simp only [Except.ok.injEq] at h
        rw [← h]
        simp [hasDecimalValList, enrichStep_ok_shape findDoc dv p d dv1 hstep, ih dv1 ds hrest]

theorem ranking_hit (origin : Except PyErr PyVal) (clock : Nat → String)
    (cache : Cache) (tick : Nat) (region : String)
    (h : RedisAdapter.key_exists cache ("store_sales_ranking:" ++ region) = true) :
    get_store_sales_ranking origin clock cache tick region =
      { resp := Except.ok { source := "redis", region := region, cached_at := Option.none,
                            data := RedisAdapter.get_value cache ("store_sales_ranking:" ++ region) },
        cache := cache, tick := tick, effects := [] } := by
  simp [get_store_sales_ranking, h]

theorem ranking_miss_ok (rows : PyVal) (clock : Nat → String)
    (cache : Cache) (tick : Nat) (region : String)
    (h : RedisAdapter.key_exists cache ("store_sales_ranking:" ++ region) = false) :
    (get_store_sales_ranking (Except.ok rows) clock cache tick region).resp =
        Except.ok { source := "postgresql", region := region,
                    cached_at := some (clock tick), data := convert_decimals rows }
    ∧ (∀ k, cacheLookup (get_store_sales_ranking (Except.ok rows) clock cache tick region).cache k =
        if k = "store_sales_ranking:" ++ region ++ ":timestamp" then
          some ⟨PyVal.str (clock tick), some 2592000⟩
        else if k = "store_sales_ranking:" ++ region then
          some ⟨convert_decimals rows, some 2592000⟩
        else cacheLookup cache k)
    ∧ (get_store_sales_ranking (Except.ok rows) clock cache tick region).tick = tick + 1
    ∧ (get_store_sales_ranking (Except.ok rows) clock cache tick region).effects =
        [Effect.pgQuery "store_sales_ranking" region,
         Effect.cacheWrite ("store_sales_ranking:" ++ region) 2592000,
         Effect.cacheWrite ("store_sales_ranking:" ++ region ++ ":timestamp") 2592000] := by
  have hv1 := hasDecimal_convert rows
  refine ⟨?_, ?_, ?_, ?_⟩ <;>
    norm_num [get_store_sales_ranking, h, RedisAdapter.set_value, hv1, hasDecimal,
      cacheLookup_after_set]

theorem delivery_hit (origin : Except PyErr PyVal) (clock : Nat → String)
    (cache : Cache) (tick : Nat) (region : String)
    (h : RedisAdapter.key_exists cache ("delivery_times:" ++ region) = true) :
    get_delivery_times origin clock cache tick region =
      { resp := Except.ok { source := "redis", region := region, cached_at := Option.none,
                            data := RedisAdapter.get_value cache ("delivery_times:" ++ region) },
        cache := cache, tick := tick, effects := [] } := by
  simp [get_delivery_times, h]

theorem delivery_miss_ok (rows : PyVal) (clock : Nat → String)
    (cache : Cache) (tick : Nat) (region : String)
    (h : RedisAdapter.key_exists cache ("delivery_times:" ++ region) = false) :
    (get_delivery_times (Except.ok rows) clock cache tick region).resp =
        Except.ok { source := "postgresql", region := region,
                    cached_at := some (clock tick), data := convert_decimals rows }
    ∧ (∀ k, cacheLookup (get_delivery_times (Except.ok rows) clock cache tick region).cache k =
        if k = "delivery_times:" ++ region ++ ":timestamp" then
          some ⟨PyVal.str (clock tick), some 2592000⟩
        else if k = "delivery_times:" ++ region then
          some ⟨convert_decimals rows, some 2592000⟩
        else cacheLookup cache k)
    ∧ (get_delivery_times (Except.ok rows) clock cache tick region).tick = tick + 1
    ∧ (get_delivery_times (Except.ok rows) clock cache tick region).effects =
        [Effect.pgQuery "delivery_times" region,
         Effect.cacheWrite ("delivery_times:" ++ region) 2592000,
         Effect.cacheWrite ("delivery_times:" ++ region ++ ":timestamp") 2592000] := by
  have hv1 := hasDecimal_convert rows
  refine ⟨?_, ?_, ?_, ?_⟩ <;>
    norm_num [get_delivery_times, h, RedisAdapter.set_value, hv1, hasDecimal,
      cacheLookup_after_set]

theorem popular_hit (origin : Except PyErr (List ProductRow))
    (findDoc : Int → Option MongoDoc) (clock : Nat → String)
    (cache : Cache) (tick : Nat) (region : String)
    (h : RedisAdapter.key_exists cache ("popular_products:" ++ region) = true) :
    get_popular_products origin findDoc clock cache tick region =
      { resp := Except.ok { source := "redis", region := region, cached_at := Option.none,
                            data := RedisAdapter.get_value cache ("popular_products:" ++ region) },
        cache := cache, tick := tick, effects := [] } := by
  simp [get_popular_products, h]

theorem popular_miss_ok (rows : List ProductRow) (enriched : List PyVal)
    (findDoc : Int → Option MongoDoc) (clock : Nat → String)
    (cache : Cache) (tick : Nat) (region : String)
    (h : RedisAdapter.key_exists cache ("popular_products:" ++ region) = false)
    (he : enrichAll findDoc Option.none rows = Except.ok enriched) :
    (get_popular_products (Except.ok rows) findDoc clock cache tick region).resp =
        Except.ok { source := "postgresql", region := region,
                    cached_at := some (clock (tick + 1)), data := PyVal.list enriched }
    ∧ (∀ k, cacheLookup
          (get_popular_products (Except.ok rows) findDoc clock cache tick region).cache k =
        if k = "popular_products:" ++ region ++ ":timestamp" then
          some ⟨PyVal.str (clock tick), some 86400⟩
        else if k = "popular_products:" ++ region then
          some ⟨PyVal.list enriched, some 86400⟩
        else cacheLookup cache k)
    ∧ (get_popular_products (Except.ok rows) findDoc clock cache tick region).tick = tick + 2
    ∧ (get_popular_products (Except.ok rows) findDoc clock cache tick region).effects =
        [Effect.pgQuery "popular_products" region,
         Effect.cacheWrite ("popular_products:" ++ region) 86400,
         Effect.cacheWrite ("popular_products:" ++ region ++ ":timestamp") 86400] := by
  have hv1 : hasDecimal (PyVal.list enriched) = false := by
    simp [hasDecimal, enrichAll_ok_no_decimal findDoc rows Option.none enriched he]
  refine ⟨?_, ?_, ?_, ?_⟩ <;>
    norm_num [get_popular_products, h, he, RedisAdapter.set_value, hv1, hasDecimal,
      cacheLookup_after_set]

theorem pyIntOfRat_intCast (m : Int) : pyIntOfRat (m : Rat) = m := by
  simp [pyIntOfRat, Rat.num_intCast, Rat.den_intCast, Int.tdiv_one]

/-- C7: the adapter's effective `delete` (the second of the two definitions,
which shadows the first) is a bulk delete of exactly the keys matching the
glob `t:*`: a key under the prefix is gone, any other key — in particular
the bare key `t` itself — is untouched.  Consequently the second call of
`clear_popular_cache`, `delete("popular_products:timestamp")`, removes
nothing: the whole endpoint equals its first call
`delete("popular_products")`. -/
theorem C7_delete_is_bulk_pattern_delete :
    (∀ (c : Cache) (t k : String),
      cacheLookup (RedisAdapter.delete c t) k =
        if strHasPref (t ++ ":") k = true then Option.none else cacheLookup c k)
    ∧ (∀ (c : Cache) (t : String),
      cacheLookup (RedisAdapter.delete c t) t = cacheLookup c t)
    ∧ (∀ c : Cache, clear_popular_cache c = RedisAdapter.delete c "popular_products") := by
  refine ⟨cacheLookup_delete, ?_, clear_popular_eq_single_delete⟩
  intro c t
  rw [cacheLookup_delete]
  simp [strHasPref_self_colon t ":" (by decide)]

/-- C6: after `clear_popular_cache`, every key under the `popular_products:`
prefix — the per-region entries and their timestamp companions alike — is
absent, so a subsequent lookup for any such key is a cache miss. -/
theorem C6_invalidation_completeness (c : Cache) (k : String)
    (h : strHasPref "popular_products:" k = true) :
    RedisAdapter.key_exists (clear_popular_cache c) k = false := by
  rw [clear_popular_eq_single_delete]
  unfold RedisAdapter.key_exists
  rw [cacheLookup_delete]
  have e1 : ("popular_products" : String) ++ ":" = "popular_products:" := by decide
  rw [e1, if_pos h]
  rfl

theorem C6_invalidation_completeness_witness :
    strHasPref "popular_products:" "popular_products:Colombia:timestamp" = true
    ∧ RedisAdapter.key_exists
        (clear_popular_cache
          [("popular_products:Colombia", ⟨PyVal.list [], some 86400⟩),
           ("popular_products:Colombia:timestamp", ⟨PyVal.str "t", some 86400⟩)])
        "popular_products:Colombia:timestamp" = false :=
  ⟨by decide, C6_invalidation_completeness _ _ (by decide)⟩

/-- C10: `set_value` attaches an expiry only when the `ttl` argument is
truthy — with `ttl=None` or `ttl=0` the key is stored with no expiration at
all — and, because `json.dumps` runs before the `SET`, a non-serializable
value (one containing a `Decimal`) raises before any key is written,
leaving the cache unchanged. -/
theorem C10_set_value_ttl_truthiness_and_serialization :
    (∀ (c : Cache) (k : String) (v : PyVal),
      hasDecimal v = false →
        RedisAdapter.set_value c k v Option.none =
          (Except.ok true, (k, ⟨v, Option.none⟩) :: removeKey c k))
    ∧ (∀ (c : Cache) (k : String) (v : PyVal),
      hasDecimal v = false →
        RedisAdapter.set_value c k v (some 0) =
          (Except.ok true, (k, ⟨v, Option.none⟩) :: removeKey c k))
    ∧ (∀ (c : Cache) (k : String) (v : PyVal) (ttl : Option Int),
      hasDecimal v = true →
        RedisAdapter.set_value c k v ttl =
          (Except.error (PyErr.typeError "Object of type Decimal is not JSON serializable"),
           c)) := by
  refine ⟨?_, ?_, ?_⟩
  · intro c k v hv; simp [RedisAdapter.set_value, hv]
  · intro c k v hv; simp [RedisAdapter.set_value, hv]
  · intro c k v ttl hv; simp [RedisAdapter.set_value, hv]

theorem C10_set_value_witness :
    RedisAdapter.set_value [] "k" (PyVal.int 5) Option.none =
        (Except.ok true, [("k", ⟨PyVal.int 5, Option.none⟩)])
    ∧ RedisAdapter.set_value [] "k" (PyVal.int 5) (some 0) =
        (Except.ok true, [("k", ⟨PyVal.int 5, Option.none⟩)])
    ∧ RedisAdapter.set_value [("j", ⟨PyVal.int 1, Option.none⟩)] "k" (PyVal.deci 1) (some 9) =
        (Except.error (PyErr.typeError "Object of type Decimal is not JSON serializable"),
         [("j", ⟨PyVal.int 1, Option.none⟩)]) := by
  refine ⟨?_, ?_, ?_⟩
  · have h := C10_set_value_ttl_truthiness_and_serialization.1 [] "k" (PyVal.int 5)
      (by simp [hasDecimal])
    simpa [removeKey] using h
  · have h := C10_set_value_ttl_truthiness_and_serialization.2.1 [] "k" (PyVal.int 5)
      (by simp [hasDecimal])
    simpa [removeKey] using h
  · exact C10_set_value_ttl_truthiness_and_serialization.2.2 _ "k" (PyVal.deci 1) (some 9)
      (by simp [hasDecimal])

/-- C4: when the derived key is present, each analytical endpoint returns
`{source: "redis", region, data: <cached value>}` at once — final cache
identical, no origin query and no cache write in the effect trace — and
consequently a miss followed by an identical request yields the same `data`
payload with the second response tagged `redis`, whatever the second
request's origin outcome or clock. -/
theorem C4_cache_hit_idempotence :
    (∀ origin clock cache tick region,
      RedisAdapter.key_exists cache ("store_sales_ranking:" ++ region) = true →
      get_store_sales_ranking origin clock cache tick region =
        { resp := Except.ok { source := "redis", region := region, cached_at := Option.none,
                              data := RedisAdapter.get_value cache ("store_sales_ranking:" ++ region) },
          cache := cache, tick := tick, effects := [] })
    ∧ (∀ origin clock cache tick region,
      RedisAdapter.key_exists cache ("delivery_times:" ++ region) = true →
      get_delivery_times origin clock cache tick region =
        { resp := Except.ok { source := "redis", region := region, cached_at := Option.none,
                              data := RedisAdapter.get_value cache ("delivery_times:" ++ region) },
          cache := cache, tick := tick, effects := [] })
    ∧ (∀ origin findDoc clock cache tick region,
      RedisAdapter.key_exists cache ("popular_products:" ++ region) = true →
      get_popular_products origin findDoc clock cache tick region =
        { resp := Except.ok { source := "redis", region := region, cached_at := Option.none,
                              data := RedisAdapter.get_value cache ("popular_products:" ++ region) },
          cache := cache, tick := tick, effects := [] })
    ∧ (∀ rows clock cache tick region origin2 clock2 tick2,
      RedisAdapter.key_exists cache ("store_sales_ranking:" ++ region) = false →
      (get_store_sales_ranking (Except.ok rows) clock cache tick region).resp =
          Except.ok { source := "postgresql", region := region,
                      cached_at := some (clock tick), data := convert_decimals rows }
      ∧ get_store_sales_ranking origin2 clock2
            (get_store_sales_ranking (Except.ok rows) clock cache tick region).cache
            tick2 region =
          { resp := Except.ok { source := "redis", region := region,
                                cached_at := Option.none, data := convert_decimals rows },
            cache := (get_store_sales_ranking (Except.ok rows) clock cache tick region).cache,
            tick := tick2, effects := [] })
    ∧ (∀ rows enriched findDoc clock cache tick region origin2 findDoc2 clock2 tick2,
      RedisAdapter.key_exists cache ("popular_products:" ++ region) = false →
      enrichAll findDoc Option.none rows = Except.ok enriched →
      (get_popular_products (Except.ok rows) findDoc clock cache tick region).resp =
          Except.ok { source := "postgresql", region := region,
                      cached_at := some (clock (tick + 1)), data := PyVal.list enriched }
      ∧ get_popular_products origin2 findDoc2 clock2
            (get_popular_products (Except.ok rows) findDoc clock cache tick region).cache
            tick2 region =
          { resp := Except.ok { source := "redis", region := region,
                                cached_at := Option.none, data := PyVal.list enriched },
            cache := (get_popular_products (Except.ok rows) findDoc clock cache tick region).cache,
            tick := tick2, effects := [] }) := by
  refine ⟨ranking_hit, delivery_hit, popular_hit, ?_, ?_⟩
  · intro rows clock cache tick region origin2 clock2 tick2 h
    obtain ⟨h1, h2, _, _⟩ := ranking_miss_ok rows clock cache tick region h
    have hne : ¬ ("store_sales_ranking:" ++ region =
        "store_sales_ranking:" ++ region ++ ":timestamp") :=
      fun hh => append_ne_self ("store_sales_ranking:" ++ region) ":timestamp"
        (by decide) hh.symm
    have hlk : cacheLookup
        (get_store_sales_ranking (Except.ok rows) clock cache tick region).cache
        ("store_sales_ranking:" ++ region) =
        some ⟨convert_decimals rows, some 2592000⟩ := by
      rw [h2]
      simp [hne]
    have hex : RedisAdapter.key_exists
        (get_store_sales_ranking (Except.ok rows) clock cache tick region).cache
        ("store_sales_ranking:" ++ region) = true := by
      simp [RedisAdapter.key_exists, hlk]
    refine ⟨h1, ?_⟩
    rw [ranking_hit origin2 clock2 _ tick2 region hex]
    simp [RedisAdapter.get_value, hlk]
  · intro rows enriched findDoc clock cache tick region origin2 findDoc2 clock2 tick2 h he
    obtain ⟨h1, h2, _, _⟩ := popular_miss_ok rows enriched findDoc clock cache tick region h he
    have hne : ¬ ("popular_products:" ++ region =
        "popular_products:" ++ region ++ ":timestamp") :=
      fun hh => append_ne_self ("popular_products:" ++ region) ":timestamp"
        (by decide) hh.symm
    have hlk : cacheLookup
        (get_popular_products (Except.ok rows) findDoc clock cache tick region).cache
        ("popular_products:" ++ region) =
        some ⟨PyVal.list enriched, some 86400⟩ := by
      rw [h2]
      simp [hne]
    have hex : RedisAdapter.key_exists
        (get_popular_products (Except.ok rows) findDoc clock cache tick region).cache
        ("popular_products:" ++ region) = true := by
      simp [RedisAdapter.key_exists, hlk]
    refine ⟨h1, ?_⟩
    rw [popular_hit origin2 findDoc2 clock2 _ tick2 region hex]
    simp [RedisAdapter.get_value, hlk]

theorem C4_cache_hit_idempotence_witness :
    (get_store_sales_ranking (Except.error (PyErr.dbError "x")) (fun _ => "t")
        [("store_sales_ranking:" ++ "C", ⟨PyVal.int 7, some 5⟩)] 0 "C" =
      { resp := Except.ok { source := "redis", region := "C", cached_at := Option.none,
                            data := RedisAdapter.get_value
                                [("store_sales_ranking:" ++ "C", ⟨PyVal.int 7, some 5⟩)]
                                ("store_sales_ranking:" ++ "C") },
        cache := [("store_sales_ranking:" ++ "C", ⟨PyVal.int 7, some 5⟩)],
        tick := 0, effects := [] })
    ∧ (get_delivery_times (Except.error (PyErr.dbError "x")) (fun _ => "t")
        [("delivery_times:" ++ "C", ⟨PyVal.int 7, some 5⟩)] 0 "C" =
      { resp := Except.ok { source := "redis", region := "C", cached_at := Option.none,
                            data := RedisAdapter.get_value
                                [("delivery_times:" ++ "C", ⟨PyVal.int 7, some 5⟩)]
                                ("delivery_times:" ++ "C") },
        cache := [("delivery_times:" ++ "C", ⟨PyVal.int 7, some 5⟩)],
        tick := 0, effects := [] })
    ∧ (get_popular_products (Except.error (PyErr.dbError "x")) (fun _ => Option.none)
        (fun _ => "t") [("popular_products:" ++ "C", ⟨PyVal.int 7, some 5⟩)] 0 "C" =
      { resp := Except.ok { source := "redis", region := "C", cached_at := Option.none,
                            data := RedisAdapter.get_value
                                [("popular_products:" ++ "C", ⟨PyVal.int 7, some 5⟩)]
                                ("popular_products:" ++ "C") },
        cache := [("popular_products:" ++ "C", ⟨PyVal.int 7, some 5⟩)],
        tick := 0, effects := [] })
    ∧ ((get_store_sales_ranking (Except.ok (PyVal.list [])) (fun _ => "t") [] 0 "C").resp =
          Except.ok { source := "postgresql", region := "C",
                      cached_at := some "t", data := convert_decimals (PyVal.list []) }
      ∧ get_store_sales_ranking (Except.error (PyErr.dbError "y")) (fun _ => "u")
            (get_store_sales_ranking (Except.ok (PyVal.list [])) (fun _ => "t") [] 0 "C").cache
            3 "C" =
          { resp := Except.ok { source := "redis", region := "C",
                                cached_at := Option.none, data := convert_decimals (PyVal.list []) },
            cache := (get_store_sales_ranking (Except.ok (PyVal.list [])) (fun _ => "t") [] 0 "C").cache,
            tick := 3, effects := [] })
    ∧ ((get_popular_products (Except.ok []) (fun _ => Option.none) (fun _ => "t") [] 0 "C").resp =
          Except.ok { source := "postgresql", region := "C",
                      cached_at := some "t", data := PyVal.list [] }
      ∧ get_popular_products (Except.error (PyErr.dbError "y")) (fun _ => Option.none)
            (fun _ => "u")
            (get_popular_products (Except.ok []) (fun _ => Option.none) (fun _ => "t") [] 0 "C").cache
            3 "C" =
          { resp := Except.ok { source := "redis", region := "C",
                                cached_at := Option.none, data := PyVal.list [] },
            cache := (get_popular_products (Except.ok []) (fun _ => Option.none) (fun _ => "t") [] 0 "C").cache,
            tick := 3, effects := [] }) := by
  refine ⟨?_, ?_, ?_, ?_, ?_⟩
  · exact C4_cache_hit_idempotence.1 _ _ _ _ _ (by decide)
  · exact C4_cache_hit_idempotence.2.1 _ _ _ _ _ (by decide)
  · exact C4_cache_hit_idempotence.2.2.1 _ _ _ _ _ _ (by decide)
  · exact C4_cache_hit_idempotence.2.2.2.1 (PyVal.list []) (fun _ => "t") [] 0 "C"
      (Except.error (PyErr.dbError "y")) (fun _ => "u") 3 (by decide)
  · exact C4_cache_hit_idempotence.2.2.2.2 [] [] (fun _ => Option.none) (fun _ => "t")
      [] 0 "C" (Except.error (PyErr.dbError "y")) (fun _ => Option.none) (fun _ => "u") 3
      (by decide) (by simp [enrichAll])

/-- C8: when the origin aggregation (or, for popular products, the
document-enrichment loop) raises, the endpoint propagates the error and
performs no cache mutation: the final cache equals the initial one and the
effect trace contains no cache write. -/
theorem C8_origin_failure_no_cache_mutation :
    (∀ e clock cache tick region,
      RedisAdapter.key_exists cache ("store_sales_ranking:" ++ region) = false →
      get_store_sales_ranking (Except.error e) clock cache tick region =
        { resp := Except.error e, cache := cache, tick := tick,
          effects := [Effect.pgQuery "store_sales_ranking" region] })
    ∧ (∀ e clock cache tick region,
      RedisAdapter.key_exists cache ("delivery_times:" ++ region) = false →
      get_delivery_times (Except.error e) clock cache tick region =
        { resp := Except.error e, cache := cache, tick := tick,
          effects := [Effect.pgQuery "delivery_times" region] })
    ∧ (∀ e findDoc clock cache tick region,
      RedisAdapter.key_exists cache ("popular_products:" ++ region) = false →
      get_popular_products (Except.error e) findDoc clock cache tick region =
        { resp := Except.error e, cache := cache, tick := tick,
          effects := [Effect.pgQuery "popular_products" region] })
    ∧ (∀ rows e findDoc clock cache tick region,
      RedisAdapter.key_exists cache ("popular_products:" ++ region) = false →
      enrichAll findDoc Option.none rows = Except.error e →
      get_popular_products (Except.ok rows) findDoc clock cache tick region =
        { resp := Except.error e, cache := cache, tick := tick,
          effects := [Effect.pgQuery "popular_products" region] }) := by
  refine ⟨?_, ?_, ?_, ?_⟩
  · intro e clock cache tick region h
    simp [get_store_sales_ranking, h]
  · intro e clock cache tick region h
    simp [get_delivery_times, h]
  · intro e findDoc clock cache tick region h
    simp [get_popular_products, h]
  · intro rows e findDoc clock cache tick region h he
    simp [get_popular_products, h, he]

theorem C8_origin_failure_witness :
    (get_store_sales_ranking (Except.error (PyErr.dbError "boom")) (fun _ => "t") [] 0 "C" =
      { resp := Except.error (PyErr.dbError "boom"), cache := [], tick := 0,
        effects := [Effect.pgQuery "store_sales_ranking" "C"] })
    ∧ (get_delivery_times (Except.error (PyErr.dbError "boom")) (fun _ => "t") [] 0 "C" =
      { resp := Except.error (PyErr.dbError "boom"), cache := [], tick := 0,
        effects := [Effect.pgQuery "delivery_times" "C"] })
    ∧ (get_popular_products (Except.error (PyErr.dbError "boom")) (fun _ => Option.none)
        (fun _ => "t") [] 0 "C" =
      { resp := Except.error (PyErr.dbError "boom"), cache := [], tick := 0,
        effects := [Effect.pgQuery "popular_products" "C"] })
    ∧ (get_popular_products (Except.ok [⟨1, "A", 100, 5⟩]) (fun _ => Option.none)
        (fun _ => "t") [] 0 "C" =
      { resp := Except.error (PyErr.nameError "discount"), cache := [], tick := 0,
        effects := [Effect.pgQuery "popular_products" "C"] }) := by
  refine ⟨?_, ?_, ?_, ?_⟩
  · exact C8_origin_failure_no_cache_mutation.1 _ _ _ _ _ (by decide)
  · exact C8_origin_failure_no_cache_mutation.2.1 _ _ _ _ _ (by decide)
  · exact C8_origin_failure_no_cache_mutation.2.2.1 _ _ _ _ _ _ (by decide)
  · exact C8_origin_failure_no_cache_mutation.2.2.2 [⟨1, "A", 100, 5⟩]
      (PyErr.nameError "discount") (fun _ => Option.none) (fun _ => "t") [] 0 "C"
      (by decide) (by simp [enrichAll, enrichStep])

/-- C9: every cache write performed by the store-sales-ranking and
delivery-times endpoints (the data entry and its timestamp companion alike)
carries the 30-day TTL of 2,592,000 seconds, and every cache write
performed by the popular-products endpoint carries the 24-hour TTL of
86,400 seconds. -/
theorem C9_ttl_policy :
    (∀ origin clock cache tick region k t,
      Effect.cacheWrite k t ∈ (get_store_sales_ranking origin clock cache tick region).effects →
      t = 2592000)
    ∧ (∀ origin clock cache tick region k t,
      Effect.cacheWrite k t ∈ (get_delivery_times origin clock cache tick region).effects →
      t = 2592000)
    ∧ (∀ origin findDoc clock cache tick region k t,
      Effect.cacheWrite k t ∈
          (get_popular_products origin findDoc clock cache tick region).effects →
      t = 86400) := by
  refine ⟨?_, ?_, ?_⟩
  · intro origin clock cache tick region k t h
    simp only [get_store_sales_ranking] at h
    split at h
    · simp at h
    · split at h
      · simp at h
      · split at h
        · simp at h
        · split at h <;> simp_all <;> omega
  · intro origin clock cache tick region k t h
    simp only [get_delivery_times] at h
    split at h
    · simp at h
    · split at h
      · simp at h
      · split at h
        · simp at h
        · split at h <;> simp_all <;> omega
  · intro origin findDoc clock cache tick region k t h
    simp only [get_popular_products] at h
    split at h
    · simp at h
    · split at h
      · simp at h
      · split at h
        · simp at h
        · split at h
          · simp at h
          · split at h <;> simp_all <;> tauto

theorem C9_ttl_policy_witness :
    (Effect.cacheWrite ("store_sales_ranking:" ++ "C") 2592000 ∈
      (get_store_sales_ranking (Except.ok (PyVal.list [])) (fun _ => "t") [] 0 "C").effects)
    ∧ (Effect.cacheWrite ("delivery_times:" ++ "C") 2592000 ∈
      (get_delivery_times (Except.ok (PyVal.list [])) (fun _ => "t") [] 0 "C").effects)
    ∧ (Effect.cacheWrite ("popular_products:" ++ "C") 86400 ∈
      (get_popular_products (Except.ok []) (fun _ => Option.none) (fun _ => "t") [] 0 "C").effects)
    ∧ (2592000 : Int) = 2592000 ∧ (86400 : Int) = 86400 := by
  have hm1 : Effect.cacheWrite ("store_sales_ranking:" ++ "C") 2592000 ∈
      (get_store_sales_ranking (Except.ok (PyVal.list [])) (fun _ => "t") [] 0 "C").effects := by
    rw [(ranking_miss_ok (PyVal.list []) (fun _ => "t") [] 0 "C" (by decide)).2.2.2]
    simp
  have hm2 : Effect.cacheWrite ("delivery_times:" ++ "C") 2592000 ∈
      (get_delivery_times (Except.ok (PyVal.list [])) (fun _ => "t") [] 0 "C").effects := by
    rw [(delivery_miss_ok (PyVal.list []) (fun _ => "t") [] 0 "C" (by decide)).2.2.2]
    simp
  have hm3 : Effect.cacheWrite ("popular_products:" ++ "C") 86400 ∈
      (get_popular_products (Except.ok []) (fun _ => Option.none) (fun _ => "t") [] 0 "C").effects := by
    rw [(popular_miss_ok [] [] (fun _ => Option.none) (fun _ => "t") [] 0 "C" (by decide)
      (by simp [enrichAll])).2.2.2]
    simp
  exact ⟨hm1, hm2, hm3,
    C9_ttl_policy.1 _ _ _ _ _ _ _ hm1,
    C9_ttl_policy.2.2 _ _ _ _ _ _ _ _ hm3⟩

/-- C3 (amended): on a cache miss each endpoint writes the result under the
derived key and a timestamp string under `{key}:timestamp` with the same
TTL; for the ranking (and delivery-times) endpoint the returned `cached_at`
equals the written timestamp, while for the popular-products endpoint
`cached_at` comes from a second, later clock sample, so it equals the
written string only when the two samples coincide. -/
theorem C3_amended_miss_write_and_cached_at :
    (∀ rows clock cache tick region,
      RedisAdapter.key_exists cache ("store_sales_ranking:" ++ region) = false →
      cacheLookup (get_store_sales_ranking (Except.ok rows) clock cache tick region).cache
          ("store_sales_ranking:" ++ region) = some ⟨convert_decimals rows, some 2592000⟩
      ∧ cacheLookup (get_store_sales_ranking (Except.ok rows) clock cache tick region).cache
          ("store_sales_ranking:" ++ region ++ ":timestamp") =
            some ⟨PyVal.str (clock tick), some 2592000⟩
      ∧ (get_store_sales_ranking (Except.ok rows) clock cache tick region).resp =
          Except.ok { source := "postgresql", region := region,
                      cached_at := some (clock tick), data := convert_decimals rows })
    ∧ (∀ rows enriched findDoc clock cache tick region,
      RedisAdapter.key_exists cache ("popular_products:" ++ region) = false →
      enrichAll findDoc Option.none rows = Except.ok enriched →
      cacheLookup (get_popular_products (Except.ok rows) findDoc clock cache tick region).cache
          ("popular_products:" ++ region) = some ⟨PyVal.list enriched, some 86400⟩
      ∧ cacheLookup (get_popular_products (Except.ok rows) findDoc clock cache tick region).cache
          ("popular_products:" ++ region ++ ":timestamp") =
            some ⟨PyVal.str (clock tick), some 86400⟩
      ∧ (get_popular_products (Except.ok rows) findDoc clock cache tick region).resp =
          Except.ok { source := "postgresql", region := region,
                      cached_at := some (clock (tick + 1)), data := PyVal.list enriched }) := by
  refine ⟨?_, ?_⟩
  · intro rows clock cache tick region h
    obtain ⟨h1, h2, _, _⟩ := ranking_miss_ok rows clock cache tick region h
    have hne : ¬ ("store_sales_ranking:" ++ region =
        "store_sales_ranking:" ++ region ++ ":timestamp") :=
      fun hh => append_ne_self ("store_sales_ranking:" ++ region) ":timestamp"
        (by decide) hh.symm
    refine ⟨?_, ?_, h1⟩
    · rw [h2]; simp [hne]
    · rw [h2]; simp
  · intro rows enriched findDoc clock cache tick region h he
    obtain ⟨h1, h2, _, _⟩ := popular_miss_ok rows enriched findDoc clock cache tick region h he
    have hne : ¬ ("popular_products:" ++ region =
        "popular_products:" ++ region ++ ":timestamp") :=
      fun hh => append_ne_self ("popular_products:" ++ region) ":timestamp"
        (by decide) hh.symm
    refine ⟨?_, ?_, h1⟩
    · rw [h2]; simp [hne]
    · rw [h2]; simp

theorem C3_counterexample_popular_cached_at :
    cacheLookup
        (get_popular_products (Except.ok [⟨1, "A", 100, 5⟩])
          (fun _ => some ⟨Option.none, some ⟨some false, Option.none, Option.none, Option.none⟩⟩)
          (fun n => if n = 0 then "T0" else "T1") [] 0 "Colombia").cache
        ("popular_products:" ++ "Colombia" ++ ":timestamp") =
      some ⟨PyVal.str "T0", some 86400⟩
    ∧ (get_popular_products (Except.ok [⟨1, "A", 100, 5⟩])
          (fun _ => some ⟨Option.none, some ⟨some false, Option.none, Option.none, Option.none⟩⟩)
          (fun n => if n = 0 then "T0" else "T1") [] 0 "Colombia").resp =
      Except.ok { source := "postgresql", region := "Colombia", cached_at := some "T1",
                  data := PyVal.list [enrichedDict ⟨1, "A", 100, 5⟩ 100 Option.none] }
    ∧ ¬ (("T1" : String) = "T0") := by
  have he : enrichAll
      (fun _ => some ⟨Option.none, some ⟨some false, Option.none, Option.none, Option.none⟩⟩)
      Option.none [(⟨1, "A", 100, 5⟩ : ProductRow)] =
      Except.ok [enrichedDict ⟨1, "A", 100, 5⟩ 100 Option.none] := by
    simp [enrichAll, enrichStep]
  obtain ⟨h1, h2, _, _⟩ := popular_miss_ok [⟨1, "A", 100, 5⟩]
    [enrichedDict ⟨1, "A", 100, 5⟩ 100 Option.none]
    (fun _ => some ⟨Option.none, some ⟨some false, Option.none, Option.none, Option.none⟩⟩)
    (fun n => if n = 0 then "T0" else "T1") [] 0 "Colombia" (by decide) he
  refine ⟨?_, ?_, by decide⟩
  · rw [h2]
    simp
  · simpa using h1

theorem C3_amended_miss_write_witness :
    (cacheLookup (get_store_sales_ranking (Except.ok (PyVal.list [])) (fun _ => "t") [] 0 "C").cache
        ("store_sales_ranking:" ++ "C") = some ⟨convert_decimals (PyVal.list []), some 2592000⟩
      ∧ cacheLookup (get_store_sales_ranking (Except.ok (PyVal.list [])) (fun _ => "t") [] 0 "C").cache
          ("store_sales_ranking:" ++ "C" ++ ":timestamp") = some ⟨PyVal.str "t", some 2592000⟩
      ∧ (get_store_sales_ranking (Except.ok (PyVal.list [])) (fun _ => "t") [] 0 "C").resp =
          Except.ok { source := "postgresql", region := "C",
                      cached_at := some "t", data := convert_decimals (PyVal.list []) })
    ∧ (cacheLookup (get_popular_products (Except.ok []) (fun _ => Option.none)
          (fun _ => "t") [] 0 "C").cache ("popular_products:" ++ "C") =
        some ⟨PyVal.list [], some 86400⟩
      ∧ cacheLookup (get_popular_products (Except.ok []) (fun _ => Option.none)
          (fun _ => "t") [] 0 "C").cache ("popular_products:" ++ "C" ++ ":timestamp") =
        some ⟨PyVal.str "t", some 86400⟩
      ∧ (get_popular_products (Except.ok []) (fun _ => Option.none)
          (fun _ => "t") [] 0 "C").resp =
        Except.ok { source := "postgresql", region := "C",
                    cached_at := some "t", data := PyVal.list [] }) :=
  ⟨C3_amended_miss_write_and_cached_at.1 (PyVal.list []) (fun _ => "t") [] 0 "C" (by decide),
   C3_amended_miss_write_and_cached_at.2 [] [] (fun _ => Option.none) (fun _ => "t") [] 0 "C"
     (by decide) (by simp [enrichAll])⟩

/-- C1 (evaluation at the failing input): a product priced 1000 whose
document carries a discount marked active with percentage 20 and a validity
window of days [0, 10], queried on day 20: the window excludes today, so by
the spec invariant the displayed price must stay 1000 — the product-detail
path indeed leaves the price at 1000 with no active discount, but the
popular-products enrichment never consults the window and returns
discounted_price 800 ≠ 1000. -/
theorem C1_popular_discount_window_ignored :
    ¬ ((0 : Int) ≤ 20 ∧ (20 : Int) ≤ 10)
    ∧ get_product_discount 1000
        (some ⟨Option.none, some ⟨some true, some 20, some 0, some 10⟩⟩) 20 = (1000, [])
    ∧ (get_popular_products (Except.ok [⟨1, "X", 1000, 3⟩])
        (fun _ => some ⟨Option.none, some ⟨some true, some 20, some 0, some 10⟩⟩)
        (fun _ => "T") [] 0 "Colombia").resp =
      Except.ok { source := "postgresql", region := "Colombia", cached_at := some "T",
                  data := PyVal.list [enrichedDict ⟨1, "X", 1000, 3⟩ 800 Option.none] }
    ∧ ¬ ((800 : Int) = 1000) := by
  have e800 : pyIntOfRat ((1000 : Rat) * (1 - 20 / 100)) = 800 := by
    have h : ((1000 : Rat) * (1 - 20 / 100)) = ((800 : Int) : Rat) := by norm_num
    rw [h, pyIntOfRat_intCast]
  refine ⟨by decide, by decide, ?_, by decide⟩
  have he : enrichAll
      (fun _ => some ⟨Option.none, some ⟨some true, some 20, some 0, some 10⟩⟩)
      Option.none [(⟨1, "X", 1000, 3⟩ : ProductRow)] =
      Except.ok [enrichedDict ⟨1, "X", 1000, 3⟩ 800 Option.none] := by
    simp [enrichAll, enrichStep, e800]
  have h1 := (popular_miss_ok [⟨1, "X", 1000, 3⟩]
    [enrichedDict ⟨1, "X", 1000, 3⟩ 800 Option.none]
    (fun _ => some ⟨Option.none, some ⟨some true, some 20, some 0, some 10⟩⟩)
    (fun _ => "T") [] 0 "Colombia" (by decide) he).1
  simpa using h1

/-- C2: the enrichment loop of `get_popular_products` assigns its local
`discount` only under `if doc and "discount" in doc` yet reads it
unconditionally: a request whose first product has no discount object
raises `NameError` (the enrichment is not total), and a later product
without a discount object silently reuses the previous product's discount —
here product 2 (price 500, no discount in its document) is priced with
product 1's stale 50% discount, yielding 250. -/
theorem C2_discount_local_variable_unassigned_or_stale :
    (get_popular_products (Except.ok [⟨1, "A", 100, 5⟩])
        (fun _ => some ⟨Option.none, Option.none⟩) (fun _ => "T") [] 0 "R").resp =
      Except.error (PyErr.nameError "discount")
    ∧ (get_popular_products (Except.ok [⟨1, "A", 1000, 5⟩, ⟨2, "B", 500, 4⟩])
        (fun pid => if pid = 1
          then some ⟨Option.none, some ⟨some true, some 50, Option.none, Option.none⟩⟩
          else some ⟨Option.none, Option.none⟩)
        (fun _ => "T") [] 0 "R").resp =
      Except.ok { source := "postgresql", region := "R", cached_at := some "T",
                  data := PyVal.list [enrichedDict ⟨1, "A", 1000, 5⟩ 500 Option.none,
                                      enrichedDict ⟨2, "B", 500, 4⟩ 250 Option.none] } := by
  have e500 : pyIntOfRat ((1000 : Rat) * (1 - 50 / 100)) = 500 := by
    have h : ((1000 : Rat) * (1 - 50 / 100)) = ((500 : Int) : Rat) := by norm_num
    rw [h, pyIntOfRat_intCast]
  have e250 : pyIntOfRat ((500 : Rat) * (1 - 50 / 100)) = 250 := by
    have h : ((500 : Rat) * (1 - 50 / 100)) = ((250 : Int) : Rat) := by norm_num
    rw [h, pyIntOfRat_intCast]
  refine ⟨?_, ?_⟩
  · have he : enrichAll (fun _ => some ⟨Option.none, Option.none⟩)
        Option.none [(⟨1, "A", 100, 5⟩ : ProductRow)] =
        Except.error (PyErr.nameError "discount") := by
      simp [enrichAll, enrichStep]
    simp [get_popular_products, RedisAdapter.key_exists, cacheLookup, he]
  · have he : enrichAll
        (fun pid => if pid = 1
          then some ⟨Option.none, some ⟨some true, some 50, Option.none, Option.none⟩⟩
          else some ⟨Option.none, Option.none⟩)
        Option.none [(⟨1, "A", 1000, 5⟩ : ProductRow), ⟨2, "B", 500, 4⟩] =
        Except.ok [enrichedDict ⟨1, "A", 1000, 5⟩ 500 Option.none,
                   enrichedDict ⟨2, "B", 500, 4⟩ 250 Option.none] := by
      simp [enrichAll, enrichStep, e500, e250]
    have h1 := (popular_miss_ok [⟨1, "A", 1000, 5⟩, ⟨2, "B", 500, 4⟩]
      [enrichedDict ⟨1, "A", 1000, 5⟩ 500 Option.none,
       enrichedDict ⟨2, "B", 500, 4⟩ 250 Option.none]
      (fun pid => if pid = 1
        then some ⟨Option.none, some ⟨some true, some 50, Option.none, Option.none⟩⟩
        else some ⟨Option.none, Option.none⟩)
      (fun _ => "T") [] 0 "R" (by decide) he).1
    simpa using h1
